import Mathlib

/-!
Verification of the knowledge_manager repository.

The repository consists of three Lambda request handlers
(KnowledgeRetriever, ContextRetriever, LongMemoryUpdater) and three
business objects (AppRoleBO, AppBehaviourBO, UserLongTermMemoryBO)
wrapping single-table lookups, plus declarative infrastructure.

This file gives a shallow embedding of those handlers and business
objects.  External collaborators (the key-value store, the HTTP layer,
the AI endpoint, the JSON decoder, the wall clock) are passed in as
explicit parameters; every side effect a handler performs is recorded
in an explicit effect trace, and Python exceptions become `Except`
errors.  Python dictionaries become association lists, Python values a
small `Val` type with Python truthiness.
-/

namespace KM


/-- Python-like values appearing in request bodies and table rows. -/
inductive Val where
  | none : Val
  | str : String → Val
  | num : Int → Val
deriving DecidableEq, Repr

/-- Python truthiness of a `Val` (None, empty string and 0 are falsy). -/
def Val.truthy : Val → Bool
  | .none => false
  | .str s => !(s == "")
  | .num n => !(n == 0)

/-- Python truthiness of the result of `dict.get` (a missing key gives None). -/
def truthyOpt : Option Val → Bool
  | Option.none => false
  | Option.some v => v.truthy

/-- Python truthiness of an optional string (None and the empty string are falsy). -/
def truthyStr : Option String → Bool
  | Option.none => false
  | Option.some s => !(s == "")

/-- Python `str()` of a `Val`, as used when a value is spliced into an f-string. -/
def Val.pyStr : Val → String
  | .none => "None"
  | .str s => s
  | .num n => toString n

/-- Python `str()` of the result of `dict.get` (None renders as "None"). -/
def pyStrOpt : Option Val → String
  | Option.none => "None"
  | Option.some v => v.pyStr

/-- A Python dictionary with string keys, as an association list; the
first binding of a key wins on lookup, so prepending models update. -/
structure Dict where
  entries : List (String × Val)
deriving DecidableEq, Repr

/-- Python `d.get(k)`: the value of the first binding of `k`, if any. -/
def Dict.get (d : Dict) (k : String) : Option Val :=
  (d.entries.find? (fun p => p.fst == k)).map (fun p => p.snd)

/-- Python `{**d, k: v}` (and `d | {k: v}`): bind `k` to `v`, shadowing
any earlier binding. -/
def Dict.set (d : Dict) (k : String) (v : Val) : Dict :=
  ⟨(k, v) :: d.entries⟩

/-- The payload posted to the AI job service by LongMemoryUpdater
(`ai_job` in long_memory_updater.py): category "text-based", the
generated prompt text, and the assistant behaviour instructions. -/
structure AIJob where
  category : String
  text : String
  assistant_behaviour : String
deriving DecidableEq, Repr

/-- A UserLongTermMemory item as written by `UserLongTermMemory.to_dict`:
user_id, a numeric timestamp sort key, and the memory payload. -/
structure UserLongTermMemory where
  user_id : Val
  timestamp : Nat
  memory : Val
deriving DecidableEq, Repr

/-- One observable side effect of a handler run, in order of occurrence:
store reads (`get_by_partition_key`, `_get_last_items_by_key`), HTTP
calls, store writes (`add`), and event-bus publishes. -/
inductive Effect where
  | storeQueryByPk (pk_name : String) (pk_value : Val)
  | storeQueryLast (key_name : String) (key_value : Val) (k : Nat)
  | httpGet (url : String)
  | httpPost (url : String) (job : AIJob)
  | storeWrite (item : UserLongTermMemory)
  | publish (detail_type : String) (message : Dict)
deriving DecidableEq, Repr

/-- Whether an effect is a read against the key-value store. -/
def Effect.isStoreRead : Effect → Bool
  | .storeQueryByPk _ _ => true
  | .storeQueryLast _ _ _ => true
  | _ => false

/-- Whether an effect is a publish to the event bus. -/
def Effect.isPublish : Effect → Bool
  | .publish _ _ => true
  | _ => false

/-- Whether an effect is a write to the key-value store. -/
def Effect.isStoreWrite : Effect → Bool
  | .storeWrite _ => true
  | _ => false

/-- A Python exception raised by a handler. -/
inductive Err where
  | valueError (msg : String)
  | runtimeError (msg : String)
  | keyError (key : String)
deriving DecidableEq, Repr

/-- Lookup in an LRU cache state (a list of entries, most recently used
first), as `functools.lru_cache` keeps per-argument results. -/
def lruFind {κ α : Type} [BEq κ] (c : List (κ × α)) (k : κ) : Option α :=
  (c.find? (fun p => p.fst == k)).map (fun p => p.snd)

/-- Record a cache hit: move the entry for `k` to the front. -/
def lruTouch {κ α : Type} [BEq κ] (c : List (κ × α)) (k : κ) (v : α) : List (κ × α) :=
  (k, v) :: c.filter (fun p => !(p.fst == k))

/-- Record a cache miss: insert the new entry at the front and drop the
least recently used entries beyond `maxsize`. -/
def lruInsert {κ α : Type} [BEq κ] (maxsize : Nat) (c : List (κ × α)) (k : κ) (v : α) :
    List (κ × α) :=
  ((k, v) :: c.filter (fun p => !(p.fst == k))).take maxsize

/-- Embedding of `functools.lru_cache(maxsize)` around `compute`: on a hit return the
cached value with no effects; on a miss run `compute` and cache its
result.  The bare `@lru_cache` decorator used in the repository defaults
to maxsize 128. -/
def cachedCall {κ α : Type} [BEq κ] (maxsize : Nat) (compute : κ → α × List Effect)
    (c : List (κ × α)) (k : κ) : α × List (κ × α) × List Effect :=
  match lruFind c k with
  | Option.some v => (v, lruTouch c k v, [])
  | Option.none =>
    let r := compute k
    (r.fst, lruInsert maxsize c k r.fst, r.snd)

/-- A row of the AppRole table, carrying the optional `role_source` attribute. -/
structure AppRoleRow where
  role_source : Option String
deriving DecidableEq, Repr

/-- A row of the AppBehaviour table, carrying the optional `behaviour_source`
attribute. -/
structure AppBehaviourRow where
  behaviour_source : Option String
deriving DecidableEq, Repr

/-- Uncached body of `AppRoleBO.get_role_source`: one partition-key query;
None when no row is found, else the first row's `role_source` attribute. -/
def get_role_source_compute (roleStore : Val → List AppRoleRow) (app_id : Val) :
    Option String × List Effect :=
  match roleStore app_id with
  | [] => (Option.none, [Effect.storeQueryByPk "app_id" app_id])
  | row :: _ => (row.role_source, [Effect.storeQueryByPk "app_id" app_id])

/-- Embedding of `AppRoleBO.get_role_source`, memoized with `@lru_cache(maxsize=128)`. -/
def get_role_source (roleStore : Val → List AppRoleRow)
    (cache : List (Val × Option String)) (app_id : Val) :
    Option String × List (Val × Option String) × List Effect :=
  cachedCall 128 (get_role_source_compute roleStore) cache app_id

/-- Python `s.startswith(pre)`, as used on the stored source strings. -/
def pyStartsWith (s pre : String) : Bool := pre.data.isPrefixOf s.data

/-- Embedding of `AppRoleBO.get_role_content`: None when the source is missing or falsy;
the fetched HTTP body when the source starts with "http"; otherwise the
stored source itself.  `httpFetch` models `_load_url_content_as_text`
(the GET response's "body" field). -/
def get_role_content (roleStore : Val → List AppRoleRow) (httpFetch : String → Option String)
    (cache : List (Val × Option String)) (app_id : Val) :
    Option String × List (Val × Option String) × List Effect :=
  let r := get_role_source roleStore cache app_id
  match r.fst with
  | Option.none => (Option.none, r.snd.fst, r.snd.snd)
  | Option.some s =>
    if s == "" then (Option.none, r.snd.fst, r.snd.snd)
    else if pyStartsWith s "http" then
      (httpFetch s, r.snd.fst, r.snd.snd ++ [Effect.httpGet s])
    else (Option.some s, r.snd.fst, r.snd.snd)

/-- Uncached body of `AppBehaviourBO.get_behaviour_source`: one
partition-key query; None when no row is found, else the first row's
`behaviour_source` attribute. -/
def get_behaviour_source_compute (behaviourStore : Val → List AppBehaviourRow) (app_id : Val) :
    Option String × List Effect :=
  match behaviourStore app_id with
  | [] => (Option.none, [Effect.storeQueryByPk "app_id" app_id])
  | row :: _ => (row.behaviour_source, [Effect.storeQueryByPk "app_id" app_id])

/-- Embedding of `AppBehaviourBO.get_behaviour_source`, memoized with `@lru_cache(maxsize=128)`. -/
def get_behaviour_source (behaviourStore : Val → List AppBehaviourRow)
    (cache : List (Val × Option String)) (app_id : Val) :
    Option String × List (Val × Option String) × List Effect :=
  cachedCall 128 (get_behaviour_source_compute behaviourStore) cache app_id

/-- Embedding of `AppBehaviourBO.get_behaviour_content`: None when the source is missing
or falsy; the fetched HTTP body when the source starts with "http";
otherwise the stored source itself. -/
def get_behaviour_content (behaviourStore : Val → List AppBehaviourRow)
    (httpFetch : String → Option String)
    (cache : List (Val × Option String)) (app_id : Val) :
    Option String × List (Val × Option String) × List Effect :=
  let r := get_behaviour_source behaviourStore cache app_id
  match r.fst with
  | Option.none => (Option.none, r.snd.fst, r.snd.snd)
  | Option.some s =>
    if s == "" then (Option.none, r.snd.fst, r.snd.snd)
    else if pyStartsWith s "http" then
      (httpFetch s, r.snd.fst, r.snd.snd ++ [Effect.httpGet s])
    else (Option.some s, r.snd.fst, r.snd.snd)

/-- Modelled from the spec: `DynamoDBBase._get_last_items_by_key` lives in
the external app_common package, not in this repository; the spec
describes it as a "get last N items by key" single-table lookup over
time-ordered records ("Sort key: secondary ordering key within a
partition, used here only for time-ordered memory records").  Modelled
as the `k` items of the partition with the largest sort keys, most
recent first. -/
def _get_last_items_by_key (items : List UserLongTermMemory) (k : Nat) : List UserLongTermMemory :=
  (items.insertionSort (fun a b => b.timestamp ≤ a.timestamp)).take k

/-- Uncached body of `UserLongTermMemoryBO.get_last_memory`: one
get-last-items query with k = 1; None when the partition is empty, else
the single returned item. -/
def get_last_memory_compute (memStore : Val → List UserLongTermMemory) (user_id : Val) :
    Option UserLongTermMemory × List Effect :=
  match _get_last_items_by_key (memStore user_id) 1 with
  | [] => (Option.none, [Effect.storeQueryLast "user_id" user_id 1])
  | r :: _ => (Option.some r, [Effect.storeQueryLast "user_id" user_id 1])

/-- Embedding of `UserLongTermMemoryBO.get_last_memory`, memoized with the bare
`@lru_cache` decorator (maxsize 128). -/
def get_last_memory (memStore : Val → List UserLongTermMemory)
    (cache : List (Val × Option UserLongTermMemory)) (user_id : Val) :
    Option UserLongTermMemory × List (Val × Option UserLongTermMemory) × List Effect :=
  cachedCall 128 (get_last_memory_compute memStore) cache user_id

/-- Embedding of `UserLongTermMemoryBO.add_memory`: build a `UserLongTermMemory` whose
timestamp is the current wall-clock time `now` (`int(time.time())`) and
write it to the table. -/
def add_memory (now : Nat) (user_id : Val) (memory : Val) : UserLongTermMemory × List Effect :=
  let r : UserLongTermMemory := ⟨user_id, now, memory⟩
  (r, [Effect.storeWrite r])

/-- Embedding of `KnowledgeRetriever._handle`: require a truthy app_id, look up the
role content, require it truthy, extend the body with "app_role",
publish the payload as "KnowledgeRetrieved" and return it. -/
def KnowledgeRetriever._handle (roleStore : Val → List AppRoleRow)
    (httpFetch : String → Option String)
    (cache : List (Val × Option String)) (body : Dict) :
    Except Err Dict × List (Val × Option String) × List Effect :=
  match body.get "app_id" with
  | Option.none => (Except.error (Err.valueError "app_id is required"), cache, [])
  | Option.some app_id =>
    if !app_id.truthy then
      (Except.error (Err.valueError "app_id is required"), cache, [])
    else
      let r := get_role_content roleStore httpFetch cache app_id
      match r.fst with
      | Option.none =>
        (Except.error (Err.valueError "AppRole not found for app_id"), r.snd.fst, r.snd.snd)
      | Option.some role =>
        if role == "" then
          (Except.error (Err.valueError "AppRole not found for app_id"), r.snd.fst, r.snd.snd)
        else
          let payload := body.set "app_role" (Val.str role)
          (Except.ok payload, r.snd.fst,
            r.snd.snd ++ [Effect.publish "KnowledgeRetrieved" payload])

/-- Embedding of `ContextRetriever._handle`: require a truthy app_id, look up the
behaviour content and require it truthy, require a truthy cbf_user_uuid,
look up the user's last memory record, extend the body with
"app_behaviour" and "user_long_term_memory", publish the payload as
"ContextRetrieved" and return it. -/
def ContextRetriever._handle (behaviourStore : Val → List AppBehaviourRow)
    (httpFetch : String → Option String)
    (memStore : Val → List UserLongTermMemory)
    (bcache : List (Val × Option String))
    (mcache : List (Val × Option UserLongTermMemory)) (body : Dict) :
    Except Err Dict × List (Val × Option String) × List (Val × Option UserLongTermMemory)
      × List Effect :=
  match body.get "app_id" with
  | Option.none => (Except.error (Err.valueError "app_id is required"), bcache, mcache, [])
  | Option.some app_id =>
    if !app_id.truthy then
      (Except.error (Err.valueError "app_id is required"), bcache, mcache, [])
    else
      let rb := get_behaviour_content behaviourStore httpFetch bcache app_id
      match rb.fst with
      | Option.none =>
        (Except.error (Err.valueError "AppBehaviour not found for app_id"),
          rb.snd.fst, mcache, rb.snd.snd)
      | Option.some behaviour =>
        if behaviour == "" then
          (Except.error (Err.valueError "AppBehaviour not found for app_id"),
            rb.snd.fst, mcache, rb.snd.snd)
        else
          match body.get "cbf_user_uuid" with
          | Option.none =>
            (Except.error (Err.valueError "user_id is required"),
              rb.snd.fst, mcache, rb.snd.snd)
          | Option.some user_id =>
            if !user_id.truthy then
              (Except.error (Err.valueError "user_id is required"),
                rb.snd.fst, mcache, rb.snd.snd)
            else
              let rm := get_last_memory memStore mcache user_id
              let last_memory_content : Val :=
                match rm.fst with
                | Option.none => Val.none
                | Option.some rec0 => rec0.memory
              let payload :=
                (body.set "app_behaviour" (Val.str behaviour)).set
                  "user_long_term_memory" last_memory_content
              (Except.ok payload, rb.snd.fst, rm.snd.fst,
                rb.snd.snd ++ rm.snd.snd ++ [Effect.publish "ContextRetrieved" payload])

/-- Embedding of `LongMemoryUpdater.__gen_prompt_input_msg`: format the current
summary and the new user/chatbot messages into the AI prompt. -/
def gen_prompt_input_msg (current_summary user_message chatbot_response : String) : String :=
  "### Current Summary:\n        " ++ current_summary ++
  "\n        \n        ### New Message:\n        User: " ++ user_message ++
  "\n        Chatbot: " ++ chatbot_response

/-- Embedding of `LongMemoryUpdater.__get_assistant_behaviour`: the fixed assistant
behaviour instructions sent with every AI job. -/
def get_assistant_behaviour : String :=
  "You are an AI assistant responsible for maintaining a concise and accurate summary of a conversation.\n        The summary should include ONLY ESSENTIAL facts, unresolved issues, user preferences, user personal information, or other important details that improve future interactions.\n\n        ### Task:\n        1. Determine if the new message is relevant to the current summary (e.g., it introduces new facts, updates existing details, or addresses unresolved issues).\n        2. If the message is relevant, update the summary by incorporating the new information while keeping it as short as possible.\n        3. If the message is not relevant, return the current summary unchanged.\n\n        ### Output (in json format):\n        \x7b\"summary\": \"<updated summary>\"\x7d\n        "

/-- The response of the AI job service's "body" field: its optional
"output" string. -/
structure AIBody where
  output : Option String
deriving DecidableEq, Repr

/-- The response of the AI job service: `body = none` models a response
dictionary with no "body" key at all. -/
structure AIHttpResult where
  body : Option AIBody
deriving DecidableEq, Repr

/-- Embedding of `LongMemoryUpdater._handle`: require truthy cbf_user_uuid,
user_message and bot_message; take the current summary from the request
body's "user_long_term_memory" field; build the AI job and POST it;
require the response to carry a body with a non-None output; decode the
output as JSON (`jsonLoads`) and take its "summary"; write a new memory
record timestamped `now`.  Returns no payload and publishes nothing. -/
def LongMemoryUpdater._handle (aiUrl : String) (aiResp : AIHttpResult)
    (jsonLoads : String → Dict) (now : Nat) (body : Dict) :
    Except Err Unit × List Effect :=
  match body.get "cbf_user_uuid" with
  | Option.none => (Except.error (Err.valueError "cbf_user_uuid is required"), [])
  | Option.some user_id =>
    if !user_id.truthy then
      (Except.error (Err.valueError "cbf_user_uuid is required"), [])
    else
      match body.get "user_message" with
      | Option.none => (Except.error (Err.valueError "user_message is required"), [])
      | Option.some user_msg =>
        if !user_msg.truthy then
          (Except.error (Err.valueError "user_message is required"), [])
        else
          match body.get "bot_message" with
          | Option.none => (Except.error (Err.valueError "bot_message is required"), [])
          | Option.some bot_msg =>
            if !bot_msg.truthy then
              (Except.error (Err.valueError "bot_message is required"), [])
            else
              let last_memory_content := body.get "user_long_term_memory"
              let ai_job : AIJob :=
                { category := "text-based",
                  text := gen_prompt_input_msg (pyStrOpt last_memory_content)
                    user_msg.pyStr bot_msg.pyStr,
                  assistant_behaviour := get_assistant_behaviour }
              let es0 := [Effect.httpPost aiUrl ai_job]
              match aiResp.body with
              | Option.none =>
                (Except.error (Err.runtimeError "Error while processing the message"), es0)
              | Option.some b =>
                match b.output with
                | Option.none =>
                  (Except.error (Err.runtimeError "Error while processing the message"), es0)
                | Option.some out =>
                  let parsed := jsonLoads out
                  match parsed.get "summary" with
                  | Option.none => (Except.error (Err.keyError "summary"), es0)
                  | Option.some new_memory_content =>
                    let w := add_memory now user_id new_memory_content
                    (Except.ok (), es0 ++ w.snd)

/-- Whether an effect is an outbound HTTP call. -/
def Effect.isHttpCall : Effect → Bool
  | .httpGet _ => true
  | .httpPost _ _ => true
  | _ => false

/-- Fixture: an AppBehaviour store holding sources for app_ids "a" and "b". -/
def exampleBehaviourStoreAB : Val → List AppBehaviourRow := fun v =>
  match v with
  | Val.str "a" => [⟨Option.some "sa"⟩]
  | Val.str "b" => [⟨Option.some "sb"⟩]
  | _ => []

/-- Fixture: an AppBehaviour store whose row for "app" carries an HTTP URL. -/
def exampleBehaviourStoreHttp : Val → List AppBehaviourRow := fun v =>
  match v with
  | Val.str "app" => [⟨Option.some "http://x"⟩]
  | _ => []

/-- Fixture: an AppBehaviour store whose row for "app" carries an empty
source string. -/
def exampleEmptySourceStore : Val → List AppBehaviourRow := fun v =>
  match v with
  | Val.str "app" => [⟨Option.some ""⟩]
  | _ => []

/-- Fixture: a memory store with two records for user "u1". -/
def exampleMemoryStore : Val → List UserLongTermMemory := fun v =>
  match v with
  | Val.str "u1" => [⟨Val.str "u1", 1, Val.str "m1"⟩, ⟨Val.str "u1", 5, Val.str "m5"⟩]
  | _ => []

/-- The summary value the updater extracts from an AI response: the
response body's output decoded as JSON, at key "summary". -/
def aiSummary (aiResp : AIHttpResult) (jsonLoads : String → Dict) : Option Val :=
  match aiResp.body with
  | Option.none => Option.none
  | Option.some b =>
    match b.output with
    | Option.none => Option.none
    | Option.some out => (jsonLoads out).get "summary"

/-- Fixture: a complete request body for LongMemoryUpdater. -/
def exampleLmuBody : Dict :=
  ⟨[("cbf_user_uuid", Val.str "u1"), ("user_message", Val.str "hi"),
    ("bot_message", Val.str "yo"), ("user_long_term_memory", Val.str "old summary")]⟩

/-- Fixture: a JSON decoder always returning an object with a summary. -/
def exampleJsonLoads : String → Dict := fun _ => ⟨[("summary", Val.str "new summary")]⟩

/-- Fixture: a successful AI-service response. -/
def exampleAiOk : AIHttpResult := ⟨Option.some ⟨Option.some "out"⟩⟩

/-- Fixture: an AppRole store with a plain (non-URL) role source for "a". -/
def exampleRoleStore : Val → List AppRoleRow := fun v =>
  match v with
  | Val.str "a" => [⟨Option.some "therole"⟩]
  | _ => []

/-- Fixture: a KnowledgeRetriever request body. -/
def exampleKrBody : Dict := ⟨[("app_id", Val.str "a")]⟩

/-- Fixture: an AppBehaviour store with a plain behaviour source for "a". -/
def exampleBehaviourStore : Val → List AppBehaviourRow := fun v =>
  match v with
  | Val.str "a" => [⟨Option.some "thebehaviour"⟩]
  | _ => []

/-- Fixture: a ContextRetriever request body. -/
def exampleCrBody : Dict := ⟨[("app_id", Val.str "a"), ("cbf_user_uuid", Val.str "u1")]⟩


theorem lruFind_lruTouch_self {κ α : Type} [BEq κ] [LawfulBEq κ]
    (c : List (κ × α)) (k : κ) (v : α) :
    lruFind (lruTouch c k v) k = Option.some v := by
  simp [lruFind, lruTouch, List.find?_cons_of_pos]

theorem lruFind_lruInsert_self {κ α : Type} [BEq κ] [LawfulBEq κ]
    (m : Nat) (hm : m ≠ 0) (c : List (κ × α)) (k : κ) (v : α) :
    lruFind (lruInsert m c k v) k = Option.some v := by
  obtain ⟨m, rfl⟩ := Nat.exists_eq_succ_of_ne_zero hm
  simp [lruFind, lruInsert, List.take_succ_cons, List.find?_cons_of_pos]

theorem cachedCall_second {κ α : Type} [BEq κ] [LawfulBEq κ]
    (m : Nat) (hm : m ≠ 0) (compute : κ → α × List Effect)
    (c : List (κ × α)) (k : κ) :
    cachedCall m compute (cachedCall m compute c k).snd.fst k
      = ((cachedCall m compute c k).fst,
         lruTouch (cachedCall m compute c k).snd.fst k (cachedCall m compute c k).fst,
         ([] : List Effect)) := by
  cases h : lruFind c k with
  | some v =>
    simp [cachedCall, h, lruFind_lruTouch_self]
  | none =>
    simp [cachedCall, h, lruFind_lruInsert_self _ hm]

theorem find?_key_filter {κ α : Type} [BEq κ] [LawfulBEq κ]
    (c : List (κ × α)) (k k' : κ) (hne : k' ≠ k) :
    (c.filter (fun p => !(p.fst == k))).find? (fun p => p.fst == k')
      = c.find? (fun p => p.fst == k') := by
  rw [List.find?_filter]
  have hpred : (fun (p : κ × α) => decide (((!(p.fst == k)) = true) ∧ ((p.fst == k') = true)))
      = fun (p : κ × α) => p.fst == k' := by
    funext p
    by_cases hp : p.fst = k'
    · subst hp
      simp [hne]
    · simp [hp]
  rw [hpred]

theorem lruFind_lruTouch_other {κ α : Type} [BEq κ] [LawfulBEq κ]
    (c : List (κ × α)) (k k' : κ) (v : α) (hne : k' ≠ k) :
    lruFind (lruTouch c k v) k' = lruFind c k' := by
  have hks : (k == k') = false := beq_eq_false_iff_ne.mpr (fun h => hne h.symm)
  simp only [lruFind, lruTouch]
  rw [List.find?_cons_of_neg _ (by simp [hks]), find?_key_filter c k k' hne]

theorem lruFind_lruInsert_other {κ α : Type} [BEq κ] [LawfulBEq κ]
    (m : Nat) (c : List (κ × α)) (k k' : κ) (v : α)
    (hlen : c.length < m) (hne : k' ≠ k) :
    lruFind (lruInsert m c k v) k' = lruFind c k' := by
  simp only [lruFind, lruInsert]
  have hks : (k == k') = false := beq_eq_false_iff_ne.mpr (fun h => hne h.symm)
  rw [List.take_of_length_le
      (by simpa using Nat.succ_le_of_lt (Nat.lt_of_le_of_lt (List.length_filter_le _ _) hlen))]
  rw [List.find?_cons_of_neg _ (by simp [hks]), find?_key_filter c k k' hne]

theorem cachedCall_preserves {κ α : Type} [BEq κ] [LawfulBEq κ]
    (m : Nat) (compute : κ → α × List Effect) (c : List (κ × α)) (k k' : κ) (v' : α)
    (hlen : c.length < m) (hne : k' ≠ k) (h : lruFind c k' = Option.some v') :
    lruFind (cachedCall m compute c k).snd.fst k' = Option.some v' := by
  cases hf : lruFind c k with
  | some v => simpa [cachedCall, hf, lruFind_lruTouch_other _ _ _ _ hne] using h
  | none => simpa [cachedCall, hf, lruFind_lruInsert_other _ _ _ _ _ hlen hne] using h


theorem lmu_ok_shape (aiUrl : String) (aiResp : AIHttpResult)
    (jsonLoads : String → Dict) (now : Nat) (body : Dict)
    (h : (LongMemoryUpdater._handle aiUrl aiResp jsonLoads now body).fst = Except.ok ()) :
    ∃ user_id user_msg bot_msg out summary,
      body.get "cbf_user_uuid" = Option.some user_id ∧ user_id.truthy = true ∧
      body.get "user_message" = Option.some user_msg ∧ user_msg.truthy = true ∧
      body.get "bot_message" = Option.some bot_msg ∧ bot_msg.truthy = true ∧
      aiResp.body = Option.some ⟨Option.some out⟩ ∧
      (jsonLoads out).get "summary" = Option.some summary ∧
      (LongMemoryUpdater._handle aiUrl aiResp jsonLoads now body).snd =
        [Effect.httpPost aiUrl
          { category := "text-based",
            text := gen_prompt_input_msg (pyStrOpt (body.get "user_long_term_memory"))
              user_msg.pyStr bot_msg.pyStr,
            assistant_behaviour := get_assistant_behaviour },
         Effect.storeWrite ⟨user_id, now, summary⟩] := by
  unfold LongMemoryUpdater._handle at h ⊢
  cases h1 : body.get "cbf_user_uuid" with
  | none => simp [h1] at h
  | some uid =>
  simp only [h1] at h ⊢
  by_cases t1 : uid.truthy
  case neg => simp [t1] at h
  simp only [t1, Bool.not_true, if_false] at h ⊢
  cases h2 : body.get "user_message" with
  | none => simp [h2] at h
  | some umsg =>
  simp only [h2] at h ⊢
  by_cases t2 : umsg.truthy
  case neg => simp [t2] at h
  simp only [t2, Bool.not_true, if_false] at h ⊢
  cases h3 : body.get "bot_message" with
  | none => simp [h3] at h
  | some bmsg =>
  simp only [h3] at h ⊢
  by_cases t3 : bmsg.truthy
  case neg => simp [t3] at h
  simp only [t3, Bool.not_true, if_false] at h ⊢
  cases h4 : aiResp.body with
  | none => simp [h4] at h
  | some b =>
  simp only [h4] at h ⊢
  cases b with
  | mk o =>
  cases h5 : o with
  | none => simp [h5] at h
  | some out =>
  simp only [h5] at h ⊢
  cases h6 : (jsonLoads out).get "summary" with
  | none => simp [h6] at h
  | some summary =>
  simp only [h6] at h ⊢
  exact ⟨uid, umsg, bmsg, out, summary, rfl, t1, rfl, t2, rfl, t3, rfl, h6,
    by simp [add_memory]⟩

theorem kr_ok_shape (roleStore : Val → List AppRoleRow) (httpFetch : String → Option String)
    (cache : List (Val × Option String)) (body : Dict) (payload : Dict)
    (h : (KnowledgeRetriever._handle roleStore httpFetch cache body).fst = Except.ok payload) :
    ∃ app_id role,
      body.get "app_id" = Option.some app_id ∧ app_id.truthy = true ∧
      (get_role_content roleStore httpFetch cache app_id).fst = Option.some role ∧
      (role == "") = false ∧
      payload = body.set "app_role" (Val.str role) ∧
      (KnowledgeRetriever._handle roleStore httpFetch cache body).snd.snd =
        (get_role_content roleStore httpFetch cache app_id).snd.snd
          ++ [Effect.publish "KnowledgeRetrieved" payload] := by
  unfold KnowledgeRetriever._handle at h ⊢
  cases h1 : body.get "app_id" with
  | none => simp [h1] at h
  | some app_id =>
  simp only [h1] at h ⊢
  by_cases t1 : app_id.truthy
  case neg => simp [t1] at h
  simp only [t1, Bool.not_true, if_false] at h ⊢
  cases h2 : (get_role_content roleStore httpFetch cache app_id).fst with
  | none => simp [h2] at h
  | some role =>
  simp only [h2] at h ⊢
  cases e : (role == "") with
  | true => simp [e] at h
  | false =>
  simp only [e, if_false] at h ⊢
  simp at h
  subst h
  exact ⟨app_id, role, rfl, t1, h2, e, rfl, rfl⟩

theorem cr_ok_shape (behaviourStore : Val → List AppBehaviourRow)
    (httpFetch : String → Option String) (memStore : Val → List UserLongTermMemory)
    (bcache : List (Val × Option String)) (mcache : List (Val × Option UserLongTermMemory))
    (body : Dict) (payload : Dict)
    (h : (ContextRetriever._handle behaviourStore httpFetch memStore bcache mcache body).fst
      = Except.ok payload) :
    ∃ app_id behaviour user_id,
      body.get "app_id" = Option.some app_id ∧ app_id.truthy = true ∧
      (get_behaviour_content behaviourStore httpFetch bcache app_id).fst
        = Option.some behaviour ∧
      (behaviour == "") = false ∧
      body.get "cbf_user_uuid" = Option.some user_id ∧ user_id.truthy = true ∧
      payload = (body.set "app_behaviour" (Val.str behaviour)).set "user_long_term_memory"
        (match (get_last_memory memStore mcache user_id).fst with
         | Option.none => Val.none
         | Option.some rec0 => rec0.memory) ∧
      (ContextRetriever._handle behaviourStore httpFetch memStore bcache mcache body).snd.snd.snd =
        (get_behaviour_content behaviourStore httpFetch bcache app_id).snd.snd
          ++ (get_last_memory memStore mcache user_id).snd.snd
          ++ [Effect.publish "ContextRetrieved" payload] := by
  unfold ContextRetriever._handle at h ⊢
  cases h1 : body.get "app_id" with
  | none => simp [h1] at h
  | some app_id =>
  simp only [h1] at h ⊢
  by_cases t1 : app_id.truthy
  case neg => simp [t1] at h
  simp only [t1, Bool.not_true, if_false] at h ⊢
  cases h2 : (get_behaviour_content behaviourStore httpFetch bcache app_id).fst with
  | none => simp [h2] at h
  | some behaviour =>
  simp only [h2] at h ⊢
  cases e : (behaviour == "") with
  | true => simp [e] at h
  | false =>
  simp only [e, if_false] at h ⊢
  cases h3 : body.get "cbf_user_uuid" with
  | none => simp [h3] at h
  | some user_id =>
  simp only [h3] at h ⊢
  by_cases t2 : user_id.truthy
  case neg => simp [t2] at h
  simp only [t2, Bool.not_true, if_false] at h ⊢
  simp at h
  subst h
  exact ⟨app_id, behaviour, user_id, rfl, t1, h2, e, rfl, t2, rfl, rfl⟩

theorem cachedCall_second_fst {κ α : Type} [BEq κ] [LawfulBEq κ]
    (m : Nat) (hm : m ≠ 0) (compute : κ → α × List Effect)
    (c : List (κ × α)) (k : κ) :
    (cachedCall m compute (cachedCall m compute c k).snd.fst k).fst
      = (cachedCall m compute c k).fst := by
  rw [cachedCall_second m hm compute c k]

theorem cachedCall_second_effects {κ α : Type} [BEq κ] [LawfulBEq κ]
    (m : Nat) (hm : m ≠ 0) (compute : κ → α × List Effect)
    (c : List (κ × α)) (k : κ) :
    (cachedCall m compute (cachedCall m compute c k).snd.fst k).snd.snd = [] := by
  rw [cachedCall_second m hm compute c k]

theorem dict_get_set (d : Dict) (k k' : String) (v : Val) :
    (d.set k v).get k' = if k' = k then Option.some v else d.get k' := by
  by_cases h : k' = k
  · subst h
    simp [Dict.get, Dict.set, List.find?_cons_of_pos]
  · have hks : (k == k') = false := beq_eq_false_iff_ne.mpr (fun hh => h hh.symm)
    simp only [Dict.get, Dict.set, if_neg h]
    rw [List.find?_cons_of_neg _ (by simp [hks])]

theorem get_role_source_no_http (roleStore : Val → List AppRoleRow)
    (cache : List (Val × Option String)) (app_id : Val) :
    ((get_role_source roleStore cache app_id).snd.snd.any Effect.isHttpCall) = false := by
  unfold get_role_source cachedCall
  cases hf : lruFind cache app_id with
  | some v => simp
  | none =>
    simp only []
    unfold get_role_source_compute
    cases roleStore app_id with
    | nil => simp [Effect.isHttpCall]
    | cons row rest => simp [Effect.isHttpCall]

theorem get_behaviour_source_no_http (behaviourStore : Val → List AppBehaviourRow)
    (cache : List (Val × Option String)) (app_id : Val) :
    ((get_behaviour_source behaviourStore cache app_id).snd.snd.any Effect.isHttpCall) = false := by
  unfold get_behaviour_source cachedCall
  cases hf : lruFind cache app_id with
  | some v => simp
  | none =>
    simp only []
    unfold get_behaviour_source_compute
    cases behaviourStore app_id with
    | nil => simp [Effect.isHttpCall]
    | cons row rest => simp [Effect.isHttpCall]

/-- C5: the lookup methods get_last_memory, get_behaviour_source and
get_role_source are memoized: for a given business-object instance and
key, a second call with the same key returns exactly the same value as
the first and performs no second store query (its effect trace is
empty). -/
theorem C5_memoized :
    (∀ (roleStore : Val → List AppRoleRow) cache app_id,
       (get_role_source roleStore (get_role_source roleStore cache app_id).snd.fst app_id).fst
         = (get_role_source roleStore cache app_id).fst ∧
       (get_role_source roleStore (get_role_source roleStore cache app_id).snd.fst app_id).snd.snd
         = []) ∧
    (∀ (behaviourStore : Val → List AppBehaviourRow) cache app_id,
       (get_behaviour_source behaviourStore
          (get_behaviour_source behaviourStore cache app_id).snd.fst app_id).fst
         = (get_behaviour_source behaviourStore cache app_id).fst ∧
       (get_behaviour_source behaviourStore
          (get_behaviour_source behaviourStore cache app_id).snd.fst app_id).snd.snd
         = []) ∧
    (∀ (memStore : Val → List UserLongTermMemory) cache user_id,
       (get_last_memory memStore (get_last_memory memStore cache user_id).snd.fst user_id).fst
         = (get_last_memory memStore cache user_id).fst ∧
       (get_last_memory memStore (get_last_memory memStore cache user_id).snd.fst user_id).snd.snd
         = []) := by
  exact ⟨fun rs c a => ⟨cachedCall_second_fst 128 (by decide) (get_role_source_compute rs) c a,
           cachedCall_second_effects 128 (by decide) (get_role_source_compute rs) c a⟩,
         fun bs c a => ⟨cachedCall_second_fst 128 (by decide) (get_behaviour_source_compute bs) c a,
           cachedCall_second_effects 128 (by decide) (get_behaviour_source_compute bs) c a⟩,
         fun ms c u => ⟨cachedCall_second_fst 128 (by decide) (get_last_memory_compute ms) c u,
           cachedCall_second_effects 128 (by decide) (get_last_memory_compute ms) c u⟩⟩

/-- C3 (counterexample): the caches are not last-value caches.  Calling
get_behaviour_source with "a", then with the different argument "b",
does not evict the entry for "a": a third call with "a" is answered
from the cache with no store query at all. -/
theorem C3_counterexample :
    Val.str "a" ≠ Val.str "b" ∧
    (get_behaviour_source exampleBehaviourStoreAB
      (get_behaviour_source exampleBehaviourStoreAB
        (get_behaviour_source exampleBehaviourStoreAB [] (Val.str "a")).snd.fst
        (Val.str "b")).snd.fst (Val.str "a")).snd.snd = [] ∧
    (get_behaviour_source exampleBehaviourStoreAB
      (get_behaviour_source exampleBehaviourStoreAB
        (get_behaviour_source exampleBehaviourStoreAB [] (Val.str "a")).snd.fst
        (Val.str "b")).snd.fst (Val.str "a")).fst = Option.some "sa" := by
  refine ⟨by decide, rfl, rfl⟩

/-- C3 (amended): each memoized lookup cache is an LRU cache of capacity
128 (the lru_cache default), not a last-value cache: while a cache holds
fewer than 128 entries, a call with one argument never evicts the cached
result of a different argument, for each of the three memoized lookups. -/
theorem C3_lru_caches :
    (∀ (roleStore : Val → List AppRoleRow) (cache : List (Val × Option String)) k k' v',
       cache.length < 128 → k' ≠ k → lruFind cache k' = Option.some v' →
       lruFind (get_role_source roleStore cache k).snd.fst k' = Option.some v') ∧
    (∀ (behaviourStore : Val → List AppBehaviourRow) (cache : List (Val × Option String)) k k' v',
       cache.length < 128 → k' ≠ k → lruFind cache k' = Option.some v' →
       lruFind (get_behaviour_source behaviourStore cache k).snd.fst k' = Option.some v') ∧
    (∀ (memStore : Val → List UserLongTermMemory) (cache : List (Val × Option UserLongTermMemory)) k k' v',
       cache.length < 128 → k' ≠ k → lruFind cache k' = Option.some v' →
       lruFind (get_last_memory memStore cache k).snd.fst k' = Option.some v') := by
  exact ⟨fun rs c k k' v' hl hne h => cachedCall_preserves 128 (get_role_source_compute rs) c k k' v' hl hne h,
         fun bs c k k' v' hl hne h => cachedCall_preserves 128 (get_behaviour_source_compute bs) c k k' v' hl hne h,
         fun ms c k k' v' hl hne h => cachedCall_preserves 128 (get_last_memory_compute ms) c k k' v' hl hne h⟩

/-- Witness for C3: with "sb" cached for key "b", a call for key "a"
leaves the entry for "b" untouched. -/
theorem C3_lru_caches_witness :
    lruFind (get_behaviour_source exampleBehaviourStoreAB
        [(Val.str "b", Option.some "sb")] (Val.str "a")).snd.fst (Val.str "b")
      = Option.some (Option.some "sb") :=
  C3_lru_caches.2.1 exampleBehaviourStoreAB [(Val.str "b", Option.some "sb")]
    (Val.str "a") (Val.str "b") (Option.some "sb") (by decide) (by decide) rfl

/-- C4 (counterexample): for app_id "app" the stored row exists and its
source "" does not start with "http", yet get_behaviour_content does not
return the stored source string unchanged: it returns None instead of "". -/
theorem C4_counterexample :
    exampleEmptySourceStore (Val.str "app") = [⟨Option.some ""⟩] ∧
    (pyStartsWith "" "http") = false ∧
    (get_behaviour_content exampleEmptySourceStore (fun _ => Option.some "B") []
      (Val.str "app")).fst = Option.none ∧
    (get_behaviour_content exampleEmptySourceStore (fun _ => Option.some "B") []
      (Val.str "app")).fst ≠ Option.some "" := by
  refine ⟨rfl, rfl, rfl, by decide⟩

/-- C4 (amended): get_behaviour_content (and likewise get_role_content)
makes the outbound HTTP call if and only if a non-empty stored source
starts with "http", in which case it returns the fetched body; a
non-empty stored source not starting with "http" is returned unchanged;
and it returns None when no source is found or the stored source is
missing or empty. -/
theorem C4_source_dispatch :
    (∀ (behaviourStore : Val → List AppBehaviourRow) httpFetch cache app_id,
      ((get_behaviour_source behaviourStore cache app_id).fst = Option.none →
        (get_behaviour_content behaviourStore httpFetch cache app_id).fst = Option.none ∧
        ((get_behaviour_content behaviourStore httpFetch cache app_id).snd.snd.any
          Effect.isHttpCall) = false) ∧
      ((get_behaviour_source behaviourStore cache app_id).fst = Option.some "" →
        (get_behaviour_content behaviourStore httpFetch cache app_id).fst = Option.none ∧
        ((get_behaviour_content behaviourStore httpFetch cache app_id).snd.snd.any
          Effect.isHttpCall) = false) ∧
      (∀ s, (get_behaviour_source behaviourStore cache app_id).fst = Option.some s →
        ¬ s = "" → pyStartsWith s "http" = true →
        (get_behaviour_content behaviourStore httpFetch cache app_id).fst = httpFetch s ∧
        ((get_behaviour_content behaviourStore httpFetch cache app_id).snd.snd.any
          Effect.isHttpCall) = true) ∧
      (∀ s, (get_behaviour_source behaviourStore cache app_id).fst = Option.some s →
        ¬ s = "" → pyStartsWith s "http" = false →
        (get_behaviour_content behaviourStore httpFetch cache app_id).fst = Option.some s ∧
        ((get_behaviour_content behaviourStore httpFetch cache app_id).snd.snd.any
          Effect.isHttpCall) = false)) ∧
    (∀ (roleStore : Val → List AppRoleRow) httpFetch cache app_id,
      ((get_role_source roleStore cache app_id).fst = Option.none →
        (get_role_content roleStore httpFetch cache app_id).fst = Option.none ∧
        ((get_role_content roleStore httpFetch cache app_id).snd.snd.any
          Effect.isHttpCall) = false) ∧
      ((get_role_source roleStore cache app_id).fst = Option.some "" →
        (get_role_content roleStore httpFetch cache app_id).fst = Option.none ∧
        ((get_role_content roleStore httpFetch cache app_id).snd.snd.any
          Effect.isHttpCall) = false) ∧
      (∀ s, (get_role_source roleStore cache app_id).fst = Option.some s →
        ¬ s = "" → pyStartsWith s "http" = true →
        (get_role_content roleStore httpFetch cache app_id).fst = httpFetch s ∧
        ((get_role_content roleStore httpFetch cache app_id).snd.snd.any
          Effect.isHttpCall) = true) ∧
      (∀ s, (get_role_source roleStore cache app_id).fst = Option.some s →
        ¬ s = "" → pyStartsWith s "http" = false →
        (get_role_content roleStore httpFetch cache app_id).fst = Option.some s ∧
        ((get_role_content roleStore httpFetch cache app_id).snd.snd.any
          Effect.isHttpCall) = false)) := by
  constructor
  · intro bs httpFetch cache app_id
    refine ⟨fun hs => ?_, fun hs => ?_, fun s hs hne hsw => ?_, fun s hs hne hsw => ?_⟩
    · unfold get_behaviour_content
      simp only [hs]
      exact ⟨by simp, get_behaviour_source_no_http bs cache app_id⟩
    · unfold get_behaviour_content
      simp only [hs]
      exact ⟨by simp, get_behaviour_source_no_http bs cache app_id⟩
    · have he : (s == "") = false := beq_eq_false_iff_ne.mpr hne
      unfold get_behaviour_content
      simp only [hs, he, if_false, hsw, if_true]
      refine ⟨rfl, ?_⟩
      simp [Effect.isHttpCall]
    · have he : (s == "") = false := beq_eq_false_iff_ne.mpr hne
      unfold get_behaviour_content
      simp only [hs, he, if_false, hsw]
      exact ⟨rfl, get_behaviour_source_no_http bs cache app_id⟩
  · intro rs httpFetch cache app_id
    refine ⟨fun hs => ?_, fun hs => ?_, fun s hs hne hsw => ?_, fun s hs hne hsw => ?_⟩
    · unfold get_role_content
      simp only [hs]
      exact ⟨by simp, get_role_source_no_http rs cache app_id⟩
    · unfold get_role_content
      simp only [hs]
      exact ⟨by simp, get_role_source_no_http rs cache app_id⟩
    · have he : (s == "") = false := beq_eq_false_iff_ne.mpr hne
      unfold get_role_content
      simp only [hs, he, if_false, hsw, if_true]
      refine ⟨rfl, ?_⟩
      simp [Effect.isHttpCall]
    · have he : (s == "") = false := beq_eq_false_iff_ne.mpr hne
      unfold get_role_content
      simp only [hs, he, if_false, hsw]
      exact ⟨rfl, get_role_source_no_http rs cache app_id⟩

/-- Witness for C4: a store whose source is the URL "http://x" leads to
an HTTP fetch returning the body "B". -/
theorem C4_source_dispatch_witness :
    (get_behaviour_content exampleBehaviourStoreHttp (fun _ => Option.some "B") []
      (Val.str "app")).fst = Option.some "B" ∧
    ((get_behaviour_content exampleBehaviourStoreHttp (fun _ => Option.some "B") []
      (Val.str "app")).snd.snd.any Effect.isHttpCall) = true :=
  (C4_source_dispatch.1 exampleBehaviourStoreHttp (fun _ => Option.some "B") []
    (Val.str "app")).2.2.1 "http://x" rfl (by decide) (by decide)

/-- C7: get_last_memory's underlying lookup performs a single
get-last-items query with k = 1 against the user's partition, returns
None exactly when the user has no memory records, and otherwise returns
a record of the partition whose timestamp is maximal (the most recent). -/
theorem C7_get_last_memory (memStore : Val → List UserLongTermMemory) (user_id : Val) :
    (get_last_memory_compute memStore user_id).snd
      = [Effect.storeQueryLast "user_id" user_id 1] ∧
    ((get_last_memory_compute memStore user_id).fst = Option.none ↔ memStore user_id = []) ∧
    (∀ r, (get_last_memory_compute memStore user_id).fst = Option.some r →
       r ∈ memStore user_id ∧ ∀ r' ∈ memStore user_id, r'.timestamp ≤ r.timestamp) := by
  unfold get_last_memory_compute _get_last_items_by_key
  cases hms : (memStore user_id).insertionSort (fun a b => b.timestamp ≤ a.timestamp) with
  | nil =>
    have hempty : memStore user_id = [] := by
      have hperm := List.perm_insertionSort
        (fun (a b : UserLongTermMemory) => b.timestamp ≤ a.timestamp) (memStore user_id)
      rw [hms] at hperm
      exact (List.Perm.nil_eq hperm).symm
    simp [hempty]
  | cons hd tl =>
    have hne : memStore user_id ≠ [] := by
      intro he
      rw [he] at hms
      simp at hms
    haveI : IsTotal UserLongTermMemory (fun a b => b.timestamp ≤ a.timestamp) :=
      ⟨fun a b => Nat.le_total b.timestamp a.timestamp⟩
    haveI : IsTrans UserLongTermMemory (fun a b => b.timestamp ≤ a.timestamp) :=
      ⟨fun _ _ _ hab hbc => Nat.le_trans hbc hab⟩
    have hsorted := List.sorted_insertionSort
      (fun (a b : UserLongTermMemory) => b.timestamp ≤ a.timestamp) (memStore user_id)
    rw [hms] at hsorted
    have hmem : hd ∈ memStore user_id := by
      have hx : hd ∈ (memStore user_id).insertionSort
          (fun a b => b.timestamp ≤ a.timestamp) := by
        rw [hms]
        exact List.mem_cons_self hd tl
      exact (List.mem_insertionSort _).mp hx
    simp only [List.take_succ_cons, List.take_zero]
    refine ⟨by trivial, ?_, ?_⟩
    · constructor
      · intro hc
        exact absurd hc (by simp)
      · intro hc
        exact absurd hc hne
    · intro r hr
      have hrhd : r = hd := by
        simpa using hr.symm
      subst hrhd
      refine ⟨hmem, ?_⟩
      intro rp hrp
      have hx : rp ∈ (memStore user_id).insertionSort
          (fun a b => b.timestamp ≤ a.timestamp) := (List.mem_insertionSort _).mpr hrp
      rw [hms] at hx
      rcases List.mem_cons.mp hx with he | ht
      · subst he
        exact Nat.le_refl _
      · exact List.rel_of_pairwise_cons hsorted ht

/-- Witness for C7: on a partition with timestamps 1 and 5 the lookup
returns the record timestamped 5, which dominates the other record. -/
theorem C7_get_last_memory_witness :
    (⟨Val.str "u1", 5, Val.str "m5"⟩ : UserLongTermMemory) ∈ exampleMemoryStore (Val.str "u1") ∧
    (⟨Val.str "u1", 1, Val.str "m1"⟩ : UserLongTermMemory).timestamp
      ≤ (⟨Val.str "u1", 5, Val.str "m5"⟩ : UserLongTermMemory).timestamp := by
  have h := (C7_get_last_memory exampleMemoryStore (Val.str "u1")).2.2
    ⟨Val.str "u1", 5, Val.str "m5"⟩ (by decide)
  exact ⟨h.1, h.2 ⟨Val.str "u1", 1, Val.str "m1"⟩ (by decide)⟩

/-- C1 (counterexample): a successful LongMemoryUpdater run whose effect
trace contains no store read at all, so the handler's sequence does not
include reading the user's last memory record from the store. -/
theorem C1_counterexample :
    (LongMemoryUpdater._handle "url" exampleAiOk exampleJsonLoads 7 exampleLmuBody).fst
      = Except.ok () ∧
    ((LongMemoryUpdater._handle "url" exampleAiOk exampleJsonLoads 7 exampleLmuBody).snd.all
      (fun e => !e.isStoreRead)) = true :=
  ⟨rfl, rfl⟩

/-- C1 (amended): every successful LongMemoryUpdater run performs exactly
this linear sequence: take the current summary from the request body's
user_long_term_memory field (not from the store), build the text prompt
from it and the new user/chatbot messages, POST it to the AI endpoint,
decode the JSON output's summary, and write one new memory record; it
performs no store read. -/
theorem C1_linear_sequence (aiUrl : String) (aiResp : AIHttpResult)
    (jsonLoads : String → Dict) (now : Nat) (body : Dict)
    (h : (LongMemoryUpdater._handle aiUrl aiResp jsonLoads now body).fst = Except.ok ()) :
    (aiSummary aiResp jsonLoads).isSome = true ∧
    (LongMemoryUpdater._handle aiUrl aiResp jsonLoads now body).snd =
      [Effect.httpPost aiUrl
        { category := "text-based",
          text := gen_prompt_input_msg (pyStrOpt (body.get "user_long_term_memory"))
            (pyStrOpt (body.get "user_message")) (pyStrOpt (body.get "bot_message")),
          assistant_behaviour := get_assistant_behaviour },
       Effect.storeWrite ⟨(body.get "cbf_user_uuid").getD Val.none, now,
         (aiSummary aiResp jsonLoads).getD Val.none⟩] ∧
    ((LongMemoryUpdater._handle aiUrl aiResp jsonLoads now body).snd.all
      (fun e => !e.isStoreRead)) = true := by
  obtain ⟨u, um, bm, o, s, h1, _, h2, _, h3, _, h4, h5, h6⟩ :=
    lmu_ok_shape aiUrl aiResp jsonLoads now body h
  have hsum : aiSummary aiResp jsonLoads = Option.some s := by
    unfold aiSummary
    rw [h4]
    exact h5
  refine ⟨by rw [hsum]; rfl, ?_, ?_⟩
  · rw [h6, h1, h2, h3, hsum]
    rfl
  · rw [h6]
    rfl

/-- Witness for C1 (amended) at concrete inputs. -/
theorem C1_linear_sequence_witness :
    (aiSummary exampleAiOk exampleJsonLoads).isSome = true ∧
    (LongMemoryUpdater._handle "url" exampleAiOk exampleJsonLoads 7 exampleLmuBody).snd =
      [Effect.httpPost "url"
        { category := "text-based",
          text := gen_prompt_input_msg (pyStrOpt (exampleLmuBody.get "user_long_term_memory"))
            (pyStrOpt (exampleLmuBody.get "user_message"))
            (pyStrOpt (exampleLmuBody.get "bot_message")),
          assistant_behaviour := get_assistant_behaviour },
       Effect.storeWrite ⟨(exampleLmuBody.get "cbf_user_uuid").getD Val.none, 7,
         (aiSummary exampleAiOk exampleJsonLoads).getD Val.none⟩] ∧
    ((LongMemoryUpdater._handle "url" exampleAiOk exampleJsonLoads 7 exampleLmuBody).snd.all
      (fun e => !e.isStoreRead)) = true :=
  C1_linear_sequence "url" exampleAiOk exampleJsonLoads 7 exampleLmuBody rfl

/-- C2 (counterexample): a successful LongMemoryUpdater run publishes
nothing: no effect in its trace is a publish. -/
theorem C2_counterexample :
    (LongMemoryUpdater._handle "url" exampleAiOk exampleJsonLoads 7 exampleLmuBody).fst
      = Except.ok () ∧
    ((LongMemoryUpdater._handle "url" exampleAiOk exampleJsonLoads 7 exampleLmuBody).snd.all
      (fun e => !e.isPublish)) = true :=
  ⟨rfl, rfl⟩

/-- C2 (amended): KnowledgeRetriever and ContextRetriever publish a
resulting message on every successful run; LongMemoryUpdater publishes
nothing on success — it writes a memory record instead. -/
theorem C2_publish_on_success :
    (∀ (roleStore : Val → List AppRoleRow) httpFetch cache body payload,
       (KnowledgeRetriever._handle roleStore httpFetch cache body).fst = Except.ok payload →
       ((KnowledgeRetriever._handle roleStore httpFetch cache body).snd.snd.any
         Effect.isPublish) = true) ∧
    (∀ (behaviourStore : Val → List AppBehaviourRow) httpFetch
        (memStore : Val → List UserLongTermMemory) bcache mcache body payload,
       (ContextRetriever._handle behaviourStore httpFetch memStore bcache mcache body).fst
         = Except.ok payload →
       ((ContextRetriever._handle behaviourStore httpFetch memStore bcache
         mcache body).snd.snd.snd.any Effect.isPublish) = true) ∧
    (∀ aiUrl aiResp jsonLoads now body,
       (LongMemoryUpdater._handle aiUrl aiResp jsonLoads now body).fst = Except.ok () →
       ((LongMemoryUpdater._handle aiUrl aiResp jsonLoads now body).snd.all
         (fun e => !e.isPublish)) = true ∧
       ((LongMemoryUpdater._handle aiUrl aiResp jsonLoads now body).snd.any
         Effect.isStoreWrite) = true) := by
  refine ⟨?_, ?_, ?_⟩
  · intro rs hf c body payload h
    obtain ⟨a, role, _, _, _, _, _, htr⟩ := kr_ok_shape rs hf c body payload h
    rw [htr]
    simp [Effect.isPublish]
  · intro bs hf ms bc mc body payload h
    obtain ⟨a, b, u, _, _, _, _, _, _, _, htr⟩ := cr_ok_shape bs hf ms bc mc body payload h
    rw [htr]
    simp [Effect.isPublish]
  · intro aiUrl aiResp jl now body h
    obtain ⟨u, um, bm, o, s, _, _, _, _, _, _, _, _, htr⟩ :=
      lmu_ok_shape aiUrl aiResp jl now body h
    rw [htr]
    constructor
    · rfl
    · rfl

/-- Witness for C2 (amended) at concrete inputs. -/
theorem C2_publish_on_success_witness :
    ((KnowledgeRetriever._handle exampleRoleStore (fun _ => Option.none) []
        exampleKrBody).snd.snd.any Effect.isPublish) = true ∧
    ((ContextRetriever._handle exampleBehaviourStore (fun _ => Option.none)
        exampleMemoryStore [] [] exampleCrBody).snd.snd.snd.any Effect.isPublish) = true ∧
    ((LongMemoryUpdater._handle "url" exampleAiOk exampleJsonLoads 7 exampleLmuBody).snd.any
        Effect.isStoreWrite) = true :=
  ⟨C2_publish_on_success.1 exampleRoleStore (fun _ => Option.none) [] exampleKrBody _ rfl,
   C2_publish_on_success.2.1 exampleBehaviourStore (fun _ => Option.none) exampleMemoryStore
     [] [] exampleCrBody _ rfl,
   (C2_publish_on_success.2.2 "url" exampleAiOk exampleJsonLoads 7 exampleLmuBody rfl).2⟩

/-- C6 (counterexample): when the request body already binds "app_role",
KnowledgeRetriever's published payload overwrites it, so the payload does
not preserve every key-value pair of the original body. -/
theorem C6_counterexample :
    (KnowledgeRetriever._handle exampleRoleStore (fun _ => Option.none) []
      ⟨[("app_id", Val.str "a"), ("app_role", Val.str "oldrole")]⟩).fst
      = Except.ok ⟨[("app_role", Val.str "therole"),
          ("app_id", Val.str "a"), ("app_role", Val.str "oldrole")]⟩ ∧
    (⟨[("app_role", Val.str "therole"), ("app_id", Val.str "a"),
        ("app_role", Val.str "oldrole")]⟩ : Dict).get "app_role"
      ≠ (⟨[("app_id", Val.str "a"), ("app_role", Val.str "oldrole")]⟩ : Dict).get "app_role" :=
  ⟨rfl, by decide⟩

/-- C6 (amended): the published payloads preserve every key-value pair of
the original body except the added keys themselves, which are overwritten
when already present: KnowledgeRetriever adds exactly "app_role", and
ContextRetriever adds exactly "app_behaviour" and "user_long_term_memory". -/
theorem C6_frame :
    (∀ (roleStore : Val → List AppRoleRow) httpFetch cache body payload,
       (KnowledgeRetriever._handle roleStore httpFetch cache body).fst = Except.ok payload →
       (∀ k, ¬ k = "app_role" → payload.get k = body.get k) ∧
       (∃ s, payload.get "app_role" = Option.some (Val.str s))) ∧
    (∀ (behaviourStore : Val → List AppBehaviourRow) httpFetch
        (memStore : Val → List UserLongTermMemory) bcache mcache body payload,
       (ContextRetriever._handle behaviourStore httpFetch memStore bcache mcache body).fst
         = Except.ok payload →
       (∀ k, ¬ k = "app_behaviour" → ¬ k = "user_long_term_memory" →
          payload.get k = body.get k) ∧
       (∃ s, payload.get "app_behaviour" = Option.some (Val.str s)) ∧
       (∃ v, payload.get "user_long_term_memory" = Option.some v)) := by
  constructor
  · intro rs hf c body payload h
    obtain ⟨a, role, _, _, _, _, hpay, _⟩ := kr_ok_shape rs hf c body payload h
    subst hpay
    refine ⟨?_, ⟨role, ?_⟩⟩
    · intro k hk
      rw [dict_get_set]
      simp [hk]
    · rw [dict_get_set]
      simp
  · intro bs hf ms bc mc body payload h
    obtain ⟨a, b, u, _, _, _, _, _, _, hpay, _⟩ := cr_ok_shape bs hf ms bc mc body payload h
    subst hpay
    refine ⟨?_, ⟨b, ?_⟩, ?_⟩
    · intro k hk1 hk2
      rw [dict_get_set, dict_get_set]
      simp [hk1, hk2]
    · rw [dict_get_set, dict_get_set]
      simp
    · refine ⟨(match (get_last_memory ms mc u).fst with
        | Option.none => Val.none
        | Option.some rec0 => rec0.memory), ?_⟩
      rw [dict_get_set]
      simp

/-- Witness for C6 (amended) at concrete inputs. -/
theorem C6_frame_witness :
    (KnowledgeRetriever._handle exampleRoleStore (fun _ => Option.none) [] exampleKrBody).fst
      = Except.ok (exampleKrBody.set "app_role" (Val.str "therole")) ∧
    (exampleKrBody.set "app_role" (Val.str "therole")).get "app_id"
      = exampleKrBody.get "app_id" :=
  ⟨rfl, (C6_frame.1 exampleRoleStore (fun _ => Option.none) [] exampleKrBody _ rfl).1
    "app_id" (by decide)⟩

/-- C8: add_memory stamps every record with the wall-clock time of the
write as its numeric sort key, so records written at nondecreasing times
carry nondecreasing timestamps; the updater's store write also carries
the current clock. -/
theorem C8_timestamp_is_write_clock :
    (∀ now user_id memory,
       (add_memory now user_id memory).fst.timestamp = now ∧
       (add_memory now user_id memory).snd
         = [Effect.storeWrite (add_memory now user_id memory).fst]) ∧
    (∀ t1 t2 u1 u2 m1 m2, t1 ≤ t2 →
       (add_memory t1 u1 m1).fst.timestamp ≤ (add_memory t2 u2 m2).fst.timestamp) ∧
    (∀ aiUrl aiResp jsonLoads now body r,
       Effect.storeWrite r ∈ (LongMemoryUpdater._handle aiUrl aiResp jsonLoads now body).snd →
       r.timestamp = now) := by
  refine ⟨fun now u m => ⟨rfl, rfl⟩, fun t1 t2 u1 u2 m1 m2 h => h, ?_⟩
  intro aiUrl aiResp jl now body r hr
  unfold LongMemoryUpdater._handle at hr
  cases h1 : body.get "cbf_user_uuid" with
  | none => simp [h1] at hr
  | some uid =>
  simp only [h1] at hr
  by_cases t1 : uid.truthy
  case neg => simp [t1] at hr
  simp only [t1, Bool.not_true, if_false] at hr
  cases h2 : body.get "user_message" with
  | none => simp [h2] at hr
  | some umsg =>
  simp only [h2] at hr
  by_cases t2 : umsg.truthy
  case neg => simp [t2] at hr
  simp only [t2, Bool.not_true, if_false] at hr
  cases h3 : body.get "bot_message" with
  | none => simp [h3] at hr
  | some bmsg =>
  simp only [h3] at hr
  by_cases t3 : bmsg.truthy
  case neg => simp [t3] at hr
  simp only [t3, Bool.not_true, if_false] at hr
  cases h4 : aiResp.body with
  | none => simp [h4] at hr
  | some b =>
  simp only [h4] at hr
  cases h5 : b.output with
  | none => simp [h5] at hr
  | some out =>
  simp only [h5] at hr
  cases h6 : (jl out).get "summary" with
  | none => simp [h6] at hr
  | some summary =>
  simp only [h6] at hr
  simp [add_memory] at hr
  simp [hr]

/-- Witness for C8 at concrete inputs. -/
theorem C8_timestamp_is_write_clock_witness :
    (add_memory 3 (Val.str "u") (Val.str "m")).fst.timestamp
      ≤ (add_memory 7 (Val.str "u") (Val.str "m")).fst.timestamp ∧
    (⟨Val.str "u1", 7, Val.str "new summary"⟩ : UserLongTermMemory).timestamp = 7 :=
  ⟨C8_timestamp_is_write_clock.2.1 3 7 (Val.str "u") (Val.str "u")
     (Val.str "m") (Val.str "m") (by decide),
   C8_timestamp_is_write_clock.2.2 "url" exampleAiOk exampleJsonLoads 7 exampleLmuBody
     ⟨Val.str "u1", 7, Val.str "new summary"⟩ (by decide)⟩

/-- C9: with a missing or falsy required field (app_id for the two
retrievers; cbf_user_uuid, user_message or bot_message for the updater)
each handler raises ValueError with an empty effect trace: no HTTP call,
no store write, no publish has happened. -/
theorem C9_required_fields :
    (∀ (roleStore : Val → List AppRoleRow) httpFetch cache body,
       truthyOpt (body.get "app_id") = false →
       KnowledgeRetriever._handle roleStore httpFetch cache body
         = (Except.error (Err.valueError "app_id is required"), cache, [])) ∧
    (∀ (behaviourStore : Val → List AppBehaviourRow) httpFetch
        (memStore : Val → List UserLongTermMemory) bcache mcache body,
       truthyOpt (body.get "app_id") = false →
       ContextRetriever._handle behaviourStore httpFetch memStore bcache mcache body
         = (Except.error (Err.valueError "app_id is required"), bcache, mcache, [])) ∧
    (∀ aiUrl aiResp jsonLoads now body,
       truthyOpt (body.get "cbf_user_uuid") = false ∨
       truthyOpt (body.get "user_message") = false ∨
       truthyOpt (body.get "bot_message") = false →
       ∃ m, LongMemoryUpdater._handle aiUrl aiResp jsonLoads now body
         = (Except.error (Err.valueError m), [])) := by
  refine ⟨?_, ?_, ?_⟩
  · intro rs hf c body h
    unfold KnowledgeRetriever._handle
    cases h1 : body.get "app_id" with
    | none => simp [h1]
    | some v =>
      rw [h1] at h
      simp only [truthyOpt] at h
      simp [h1, h]
  · intro bs hf ms bc mc body h
    unfold ContextRetriever._handle
    cases h1 : body.get "app_id" with
    | none => simp [h1]
    | some v =>
      rw [h1] at h
      simp only [truthyOpt] at h
      simp [h1, h]
  · intro aiUrl aiResp jl now body hbad
    unfold LongMemoryUpdater._handle
    cases h1 : body.get "cbf_user_uuid" with
    | none => exact ⟨"cbf_user_uuid is required", by simp [h1]⟩
    | some u =>
    by_cases t1 : u.truthy
    case neg =>
      refine ⟨"cbf_user_uuid is required", ?_⟩
      have t1f : u.truthy = false := by simpa using t1
      simp [h1, t1f]
    cases h2 : body.get "user_message" with
    | none => exact ⟨"user_message is required", by simp [h1, t1, h2]⟩
    | some um =>
    by_cases t2 : um.truthy
    case neg =>
      refine ⟨"user_message is required", ?_⟩
      have t2f : um.truthy = false := by simpa using t2
      simp [h1, t1, h2, t2f]
    cases h3 : body.get "bot_message" with
    | none => exact ⟨"bot_message is required", by simp [h1, t1, h2, t2, h3]⟩
    | some bm =>
    by_cases t3 : bm.truthy
    case neg =>
      refine ⟨"bot_message is required", ?_⟩
      have t3f : bm.truthy = false := by simpa using t3
      simp [h1, t1, h2, t2, h3, t3f]
    exfalso
    rcases hbad with hb | hb | hb
    · rw [h1] at hb
      simp only [truthyOpt] at hb
      exact absurd hb (by simp [t1])
    · rw [h2] at hb
      simp only [truthyOpt] at hb
      exact absurd hb (by simp [t2])
    · rw [h3] at hb
      simp only [truthyOpt] at hb
      exact absurd hb (by simp [t3])

/-- Witness for C9 at concrete inputs (an empty request body). -/
theorem C9_required_fields_witness :
    KnowledgeRetriever._handle exampleRoleStore (fun _ => Option.none) [] ⟨[]⟩
      = (Except.error (Err.valueError "app_id is required"), [], []) ∧
    ContextRetriever._handle exampleBehaviourStore (fun _ => Option.none)
        exampleMemoryStore [] [] ⟨[]⟩
      = (Except.error (Err.valueError "app_id is required"), [], [], []) :=
  ⟨C9_required_fields.1 exampleRoleStore (fun _ => Option.none) [] ⟨[]⟩ rfl,
   C9_required_fields.2.1 exampleBehaviourStore (fun _ => Option.none)
     exampleMemoryStore [] [] ⟨[]⟩ rfl⟩

/-- C10: when the AI response has no body or a None output, the updater
raises RuntimeError and its trace contains no store write, leaving the
memory store unchanged. -/
theorem C10_bad_ai_response (aiUrl : String) (aiResp : AIHttpResult)
    (jsonLoads : String → Dict) (now : Nat) (body : Dict)
    (h1 : truthyOpt (body.get "cbf_user_uuid") = true)
    (h2 : truthyOpt (body.get "user_message") = true)
    (h3 : truthyOpt (body.get "bot_message") = true)
    (hbad : aiResp.body = Option.none ∨
      ∃ b, aiResp.body = Option.some b ∧ b.output = Option.none) :
    (LongMemoryUpdater._handle aiUrl aiResp jsonLoads now body).fst
      = Except.error (Err.runtimeError "Error while processing the message") ∧
    ((LongMemoryUpdater._handle aiUrl aiResp jsonLoads now body).snd.all
      (fun e => !e.isStoreWrite)) = true := by
  unfold LongMemoryUpdater._handle
  cases hq1 : body.get "cbf_user_uuid" with
  | none => rw [hq1] at h1; simp [truthyOpt] at h1
  | some u =>
  rw [hq1] at h1
  simp only [truthyOpt] at h1
  simp only [hq1, h1, Bool.not_true, if_false]
  cases hq2 : body.get "user_message" with
  | none => rw [hq2] at h2; simp [truthyOpt] at h2
  | some um =>
  rw [hq2] at h2
  simp only [truthyOpt] at h2
  simp only [hq2, h2, Bool.not_true, if_false]
  cases hq3 : body.get "bot_message" with
  | none => rw [hq3] at h3; simp [truthyOpt] at h3
  | some bm =>
  rw [hq3] at h3
  simp only [truthyOpt] at h3
  simp only [hq3, h3, Bool.not_true, if_false]
  rcases hbad with hb | ⟨b, hb, ho⟩
  · simp [hb, Effect.isStoreWrite]
  · simp [hb, ho, Effect.isStoreWrite]

/-- Witness for C10 at concrete inputs (a response with no body). -/
theorem C10_bad_ai_response_witness :
    (LongMemoryUpdater._handle "url" ⟨Option.none⟩ exampleJsonLoads 7 exampleLmuBody).fst
      = Except.error (Err.runtimeError "Error while processing the message") ∧
    ((LongMemoryUpdater._handle "url" ⟨Option.none⟩ exampleJsonLoads 7 exampleLmuBody).snd.all
      (fun e => !e.isStoreWrite)) = true :=
  C10_bad_ai_response "url" ⟨Option.none⟩ exampleJsonLoads 7 exampleLmuBody
    rfl rfl rfl (Or.inl rfl)

end KM
